import Mathlib

/-!
Verification of the SmartSaverNet sequential agent pipeline and its
heuristic calculators, as a shallow embedding of the Python sources
(`orchestrator/state.py`, `orchestrator/graph.py`, `orchestrator/tools.py`,
`agents/*.py`, `app.py`).

Modelling conventions:
* Python floats are modelled as exact rationals (`ℚ`).  Python's `round`
  (banker's rounding, round-half-to-even) is modelled exactly by `pyround`;
  `round(x, 2)` by `pyround2`, `round(x, -3)` by rounding `x / 1000`.
* A Python `dict` with a fixed key set is modelled as a structure; a dict
  that may be empty (`state.budget`, `state.debt_plan`) as an `Option`.
* Step Modules may raise; this is modelled by `StepResult.err`, which also
  carries the state as it stood when the exception was raised (Python
  mutates the state object in place, so partial mutation survives a raise).
* `list.sort(key=...)` (stable, ascending) is modelled by a stable
  insertion sort `sortByLt` parameterised by a strict comparison on keys.
* Digit-level details of Python's float-to-string conversion inside
  human-readable messages are rendered by the `fmt`/`comma` helpers; no
  verified property depends on those digits, only on the surrounding
  literal text.
-/

/-! ## Numeric helpers (orchestrator/tools.py) -/

/-- `clamp` from orchestrator/tools.py: `max(lo, min(hi, v))`. -/
def clamp (v lo hi : ℚ) : ℚ := max lo (min hi v)

/-- Python's builtin `round` to an integer: round half to even. -/
def pyround (x : ℚ) : ℤ :=
  if x - ⌊x⌋ < 1/2 then ⌊x⌋
  else if 1/2 < x - ⌊x⌋ then ⌊x⌋ + 1
  else if ⌊x⌋ % 2 = 0 then ⌊x⌋ else ⌊x⌋ + 1

/-- Python's `round(x, 2)`: round to two decimal places. -/
def pyround2 (x : ℚ) : ℚ := (pyround (x * 100) : ℚ) / 100

/-- Python's `int()` applied to a float: truncation toward zero. -/
def pytrunc (x : ℚ) : ℤ := if 0 ≤ x then ⌊x⌋ else ⌈x⌉

lemma abs_pyround_sub (x : ℚ) : |(pyround x : ℚ) - x| ≤ 1/2 := by
  have hf : (⌊x⌋ : ℚ) ≤ x := Int.floor_le x
  have hc : x < (⌊x⌋ : ℚ) + 1 := Int.lt_floor_add_one x
  rw [abs_le]
  unfold pyround
  split_ifs with h1 h2 h3 <;> constructor <;> push_cast <;> linarith

lemma abs_pyround2_sub (x : ℚ) : |pyround2 x - x| ≤ 1/200 := by
  have h := abs_pyround_sub (x * 100)
  rw [abs_le] at h ⊢
  unfold pyround2
  constructor <;> linarith [h.1, h.2]

lemma pyround_nonneg {x : ℚ} (h : 0 ≤ x) : 0 ≤ (pyround x : ℚ) := by
  have hf : (0 : ℚ) ≤ (⌊x⌋ : ℚ) := by exact_mod_cast Int.floor_nonneg.mpr h
  unfold pyround
  split_ifs <;> push_cast <;> linarith

lemma pyround2_nonneg {x : ℚ} (h : 0 ≤ x) : 0 ≤ pyround2 x := by
  unfold pyround2
  have := pyround_nonneg (show 0 ≤ x * 100 by linarith)
  positivity

/-! ## String rendering helpers for the agents' human-readable messages -/

/-- Group a little-endian digit list into blocks of three. -/
def chunk3 : List Char → List (List Char)
  | [] => []
  | [a] => [[a]]
  | [a, b] => [[a, b]]
  | a :: b :: c :: rest => [a, b, c] :: chunk3 rest

/-- Render a natural number with thousands separators, Python `f"{n:,}"`. -/
def commaNat (n : Nat) : String :=
  let groups := ((chunk3 (toString n).data.reverse).map List.reverse).reverse
  String.intercalate "," (groups.map List.asString)

/-- Render an integer with thousands separators. -/
def commaInt (n : ℤ) : String :=
  (if n < 0 then "-" else "") ++ commaNat n.natAbs

/-- `inr` from orchestrator/tools.py (also `_fmt_inr` in agents/budget.py):
Python `f"₹{n:,.0f}"` — rupee sign plus the half-even-rounded integer with
thousands separators. -/
def inr (n : ℚ) : String := "₹" ++ commaInt (pyround n)

/-- Python `f"{x:.0%}"`: the rate as a whole-number percentage. -/
def fmtPct (x : ℚ) : String := toString (pyround (x * 100)) ++ "%"

/-- Python `f"{x:,}"` for a float that is a multiple of 1/100 (every use
site formats the output of a two-decimal round). -/
def fmtFloat2 (q : ℚ) : String :=
  let cents := (pyround (q * 100)).natAbs
  (if q < 0 then "-" else "") ++ commaNat (cents / 100) ++ "." ++
    (if cents % 100 % 10 = 0 then toString (cents % 100 / 10)
     else (if cents % 100 < 10 then "0" else "") ++ toString (cents % 100))

/-! ## Data model (orchestrator/state.py) -/

/-- The `budget` mapping `{"essentials","wants","savings"} → float`. -/
structure Budget where
  essentials : ℚ
  wants : ℚ
  savings : ℚ
deriving DecidableEq

/-- One entry of `savings_suggestions`. -/
structure Suggestion where
  tip : String
  est_monthly_savings : ℚ
deriving DecidableEq

/-- The `Debt` dataclass of orchestrator/tools.py (also the shape of the
`debts` entries on the state). -/
structure Debt where
  name : String
  balance : ℚ
  apr : ℚ
  min_payment : ℚ
deriving DecidableEq

/-- One entry of `goals`: `{name, target, deadline, saved}`. -/
structure Goal where
  name : String
  target : ℚ
  deadline : String
  saved : ℚ
deriving DecidableEq

/-- One entry of `alerts`: `{category, spent, soft_cap, message}`. -/
structure Alert where
  category : String
  spent : ℚ
  soft_cap : ℚ
  message : String
deriving DecidableEq

/-- `next_focus` of a debt plan: `{name, extra_payment}`; `name` is `None`
when there are no debts. -/
structure NextFocus where
  name : Option String
  extra_payment : ℚ
deriving DecidableEq

/-- One entry of a debt plan's `order` list. -/
structure OrderEntry where
  name : String
  balance : ℚ
  apr : ℚ
  months_est : ℤ
deriving DecidableEq

/-- One entry of a debt plan's `schedule` list. -/
structure SchedEntry where
  debt : String
  strategy : String
  amount : ℚ
deriving DecidableEq

/-- The debt plan returned by `payoff_plan` (orchestrator/tools.py, the
second, overriding definition at the bottom of the file). -/
structure Plan where
  method : String
  next_focus : NextFocus
  order : List OrderEntry
  projected_interest_saved : ℚ
  recommended_total_payment : ℚ
  schedule : List SchedEntry
  recommendation : String
deriving DecidableEq

/-- `UserState` from orchestrator/state.py with its pydantic defaults. -/
structure UserState where
  suggested_autosave : Option ℚ := none
  income : ℚ := 60000
  monthly_spend : ℚ := 45000
  savings_rate : ℚ := 15/100
  budget : Option Budget := none
  savings_suggestions : List Suggestion := []
  debts : List Debt :=
    [⟨"Credit Card", 30000, 36/100, 1500⟩, ⟨"Student Loan", 120000, 11/100, 2500⟩]
  debt_strategy : String := "avalanche"
  debt_plan : Option Plan := none
  goals : List Goal := []
  alerts : List Alert := []
deriving DecidableEq

/-- `default_state()` from orchestrator/state.py. -/
def default_state : UserState := {}

/-- A state with all-zero / empty fields (zero income, no debts, no goals),
used to check the "absent/zero values are valid" part of the contract. -/
def zeroState : UserState :=
  { suggested_autosave := none, income := 0, monthly_spend := 0, savings_rate := 0,
    budget := none, savings_suggestions := [], debts := [], debt_strategy := "avalanche",
    debt_plan := none, goals := [], alerts := [] }

/-! ## Budgeting (orchestrator/tools.py `calc_budget`, agents/budget.py) -/

/-- `calc_budget` from orchestrator/tools.py: clamp the savings rate to
[0, 0.9], split the remainder between essentials and wants in the default
5:3 proportion, and round each slice to two decimals. -/
def calc_budget (s : UserState) : Budget :=
  let income := s.income
  let savings_rate := clamp s.savings_rate 0 (9/10)
  let remain := max 0 (1 - savings_rate)
  let total_default_non_sav : ℚ := 1/2 + 3/10
  let essentials_ratio := remain * ((1/2) / total_default_non_sav)
  let wants_ratio := remain * ((3/10) / total_default_non_sav)
  ⟨pyround2 (income * essentials_ratio),
   pyround2 (income * wants_ratio),
   pyround2 (income * savings_rate)⟩

/-- `Agent.step` of agents/budget.py.  `calc_budget` is total here, so the
fallback 50/30/20 branch of the Python `try`/`except` is unreachable.  The
step stores the budget and recomputes `savings_rate` as
`budget["savings"] / income` (0 when income is not positive). -/
def budgetStep (s : UserState) : UserState × String :=
  let b := calc_budget s
  let income := s.income
  let new_rate := if 0 < income then b.savings / income else 0
  let msg := "Set your monthly budget → Essentials " ++ inr b.essentials ++
    ", Wants " ++ inr b.wants ++ ", Savings " ++ inr b.savings ++
    " (" ++ fmtPct new_rate ++ ")."
  ({s with budget := some b, savings_rate := new_rate}, msg)

lemma clamp_savings_nonneg (s : UserState) : 0 ≤ clamp s.savings_rate 0 (9/10) :=
  le_max_left _ _

lemma clamp_savings_le (s : UserState) : clamp s.savings_rate 0 (9/10) ≤ 9/10 :=
  max_le (by norm_num) (min_le_left _ _)

/-- Claim C4: for every State passed through the Budget step, the computed
`budget.essentials + budget.wants + budget.savings` equals `income` to
within rounding tolerance (three two-decimal roundings, hence within
3/200), the step stores exactly this budget on the state, and the step's
resulting `savings_rate` equals `budget.savings / income` when
`income > 0` and `0` when it is not positive (hence in particular when
`income == 0`). -/
theorem C4_budget_invariant (s : UserState) :
    |(calc_budget s).essentials + (calc_budget s).wants + (calc_budget s).savings
        - s.income| ≤ 3/200
    ∧ (budgetStep s).1.budget = some (calc_budget s)
    ∧ (budgetStep s).1.savings_rate
        = (if 0 < s.income then (calc_budget s).savings / s.income else 0) := by
  refine ⟨?_, rfl, rfl⟩
  have hc0 : 0 ≤ clamp s.savings_rate 0 (9/10) := clamp_savings_nonneg s
  have hc1 : clamp s.savings_rate 0 (9/10) ≤ 9/10 := clamp_savings_le s
  set c := clamp s.savings_rate 0 (9/10) with hcdef
  have hrem : max 0 (1 - c) = 1 - c := max_eq_right (by linarith)
  show |pyround2 (s.income * (max 0 (1 - c) * ((1/2) / (1/2 + 3/10))))
      + pyround2 (s.income * (max 0 (1 - c) * ((3/10) / (1/2 + 3/10))))
      + pyround2 (s.income * c) - s.income| ≤ 3/200
  rw [hrem]
  set x1 := s.income * ((1 - c) * ((1/2) / (1/2 + 3/10))) with hx1
  set x2 := s.income * ((1 - c) * ((3/10) / (1/2 + 3/10))) with hx2
  set x3 := s.income * c with hx3
  have hsum : x1 + x2 + x3 = s.income := by
    rw [hx1, hx2, hx3]; ring
  have e1 := abs_pyround2_sub x1
  have e2 := abs_pyround2_sub x2
  have e3 := abs_pyround2_sub x3
  have hrw : pyround2 x1 + pyround2 x2 + pyround2 x3 - s.income
      = (pyround2 x1 - x1) + ((pyround2 x2 - x2) + (pyround2 x3 - x3)) := by
    rw [← hsum]; ring
  rw [hrw]
  calc |(pyround2 x1 - x1) + ((pyround2 x2 - x2) + (pyround2 x3 - x3))|
      ≤ |pyround2 x1 - x1| + |(pyround2 x2 - x2) + (pyround2 x3 - x3)| := abs_add _ _
    _ ≤ |pyround2 x1 - x1| + (|pyround2 x2 - x2| + |pyround2 x3 - x3|) := by
        have := abs_add (pyround2 x2 - x2) (pyround2 x3 - x3)
        linarith
    _ ≤ 3/200 := by linarith

/-- Concrete input falsifying claim C6 as stated: income 0.009 with
savings_rate 0.9.  `calc_budget` rounds the savings slice 0.0081 up to
0.01, and the Budget step then sets `savings_rate = 0.01 / 0.009 = 10/9`,
which is outside [0, 1]. -/
def c6CexState : UserState := { income := 9/1000, savings_rate := 9/10 }

/-- Claim C6, counterexample: on `c6CexState` the Budget step leaves
`savings_rate` strictly above 1, so the claim "after the Budget step the
State's savings_rate lies in [0,1]" is false for this state. -/
theorem C6_counterexample : ¬ ((budgetStep c6CexState).1.savings_rate ≤ 1) := by
  have h : (budgetStep c6CexState).1.savings_rate = 10/9 := by
    simp only [budgetStep, c6CexState, calc_budget, clamp]
    norm_num [pyround2, pyround]
  rw [h]
  norm_num

/-- Claim C6 (amended): for every input State whose income is nonpositive
or at least 1/20 — including states whose savings_rate lies outside [0,1]
— the Budget step clamps rather than raises, and afterwards the State's
`savings_rate` lies in [0,1].  (For positive incomes below 1/20 the
two-decimal rounding of the savings slice can overshoot, see
`C6_counterexample`.) -/
theorem C6_savings_rate_clamped (s : UserState)
    (h : s.income ≤ 0 ∨ 1/20 ≤ s.income) :
    0 ≤ (budgetStep s).1.savings_rate ∧ (budgetStep s).1.savings_rate ≤ 1 := by
  have hstep : (budgetStep s).1.savings_rate
      = (if 0 < s.income then (calc_budget s).savings / s.income else 0) := rfl
  rw [hstep]
  rcases h with h0 | h05
  · rw [if_neg (not_lt.mpr h0)]
    exact ⟨le_refl 0, by norm_num⟩
  · have hpos : 0 < s.income := by linarith
    rw [if_pos hpos]
    have hc0 : 0 ≤ clamp s.savings_rate 0 (9/10) := clamp_savings_nonneg s
    have hc1 : clamp s.savings_rate 0 (9/10) ≤ 9/10 := clamp_savings_le s
    have hsavings : (calc_budget s).savings
        = pyround2 (s.income * clamp s.savings_rate 0 (9/10)) := rfl
    rw [hsavings]
    set c := clamp s.savings_rate 0 (9/10) with hcdef
    constructor
    · exact div_nonneg (pyround2_nonneg (by positivity)) (le_of_lt hpos)
    · rw [div_le_one hpos]
      have habs := abs_pyround2_sub (s.income * c)
      rw [abs_le] at habs
      have hbound : s.income * c ≤ s.income * (9/10) :=
        mul_le_mul_of_nonneg_left hc1 (le_of_lt hpos)
      linarith [habs.2]

/-- Witness for C6 (amended) at the default state (income 60000). -/
theorem C6_witness :
    (default_state.income ≤ 0 ∨ 1/20 ≤ default_state.income)
    ∧ (0 ≤ (budgetStep default_state).1.savings_rate
        ∧ (budgetStep default_state).1.savings_rate ≤ 1) :=
  ⟨Or.inr (by norm_num [default_state]),
   C6_savings_rate_clamped default_state (Or.inr (by norm_num [default_state]))⟩

/-! ## Pipeline runner (orchestrator/graph.py, app.py `run_once_fallback`)

A Step Module is an agent name together with its `step` function.  A step
either returns `(new_state, message)` or raises; a raising step is modelled
by `StepResult.err`, carrying the exception's description and the state
object as it stood when the exception was raised (the Python state is
mutated in place, so whatever partial mutation happened before the raise
survives).  The runner (`_make_node` wired in a linear chain by
`build_graph`, and equally `run_once_fallback`) executes the steps left to
right, appending one `{agent, content}` message per step; a raising step
contributes a `"⚠️ Error: ..."` message under the agent's declared name and
the pipeline continues — no exception escapes the run. -/

/-- Outcome of invoking one Step Module on a state. -/
inductive StepResult where
  | ok (s : UserState) (msg : String)
  | err (s : UserState) (desc : String)

/-- A Step Module: declared agent name plus the `step` function. -/
structure Step where
  name : String
  run : UserState → StepResult

/-- A Message: `{agent, content}`, one per attempted step. -/
structure Message where
  agent : String
  content : String
deriving DecidableEq

/-- The error `content` built by the runner's `except` branch
(`f"⚠️ Error: ..."`). -/
def errContent (desc : String) : String := "⚠️ Error: " ++ desc

/-- The state/message produced by one node of the graph (`_make_node`):
on success the returned state and the agent's message; on an exception the
state as mutated so far and the error message under the agent's name. -/
def nodeOutput (st : Step) (s : UserState) : UserState × Message :=
  match st.run s with
  | .ok s' m => (s', ⟨st.name, m⟩)
  | .err s' d => (s', ⟨st.name, errContent d⟩)

/-- The linear pipeline: run each step in order, threading the state and
collecting one message per step (`build_graph` + `run_graph_once`, and
equally `run_once_fallback`). -/
def runPipeline : List Step → UserState → UserState × List Message
  | [], s => (s, [])
  | st :: rest, s =>
    let out := nodeOutput st s
    let tail := runPipeline rest out.1
    (tail.1, out.2 :: tail.2)

/-- The placeholder no-op node `build_graph` installs when the list of
active agents is empty. -/
def noop (payload : UserState × List Message) : UserState × List Message := payload

/-- `run_graph_once` on the compiled empty graph: invoke the no-op node on
the payload `{"user_state": state, "messages": []}`. -/
def runGraphOnceEmpty (s : UserState) : UserState × List Message := noop (s, [])

lemma nodeOutput_agent (st : Step) (s : UserState) : (nodeOutput st s).2.agent = st.name := by
  unfold nodeOutput
  cases st.run s <;> rfl

lemma runPipeline_length (steps : List Step) (s : UserState) :
    (runPipeline steps s).2.length = steps.length := by
  induction steps generalizing s with
  | nil => rfl
  | cons st rest ih => simp [runPipeline, ih]

lemma runPipeline_agents (steps : List Step) (s : UserState) :
    (runPipeline steps s).2.map Message.agent = steps.map Step.name := by
  induction steps generalizing s with
  | nil => rfl
  | cons st rest ih => simp [runPipeline, ih, nodeOutput_agent]

lemma runPipeline_append (xs ys : List Step) (s : UserState) :
    runPipeline (xs ++ ys) s
      = ((runPipeline ys (runPipeline xs s).1).1,
         (runPipeline xs s).2 ++ (runPipeline ys (runPipeline xs s).1).2) := by
  induction xs generalizing s with
  | nil => simp [runPipeline]
  | cons st rest ih => simp [runPipeline, ih]

/-- Claim C1: for any ordered sequence of N Step Modules and any initial
State, one pipeline run produces exactly N Messages, one per step in the
same order as the input sequence — the i-th message carries the i-th
step's declared agent name. -/
theorem C1_order_preservation (steps : List Step) (s : UserState) :
    (runPipeline steps s).2.length = steps.length
    ∧ (runPipeline steps s).2.map Message.agent = steps.map Step.name :=
  ⟨runPipeline_length steps s, runPipeline_agents steps s⟩

/-- Claim C2: if the step at position k raises (its `run` on the state
reached after the prefix is `err s' d`), the run still returns one message
per step: the messages are exactly the prefix's normal messages, then the
error message under the failing step's declared name, then the normal
messages of the remaining steps — which still execute, starting from the
state `s'` as it stood when the step raised (so the failed step does not
advance the state beyond its partial mutation).  The run is a total
function, so no exception escapes to the caller. -/
theorem C2_failure_isolation (pre post : List Step) (st : Step) (s s' : UserState)
    (d : String) (h : st.run (runPipeline pre s).1 = .err s' d) :
    (runPipeline (pre ++ st :: post) s).2
      = (runPipeline pre s).2 ++ ⟨st.name, errContent d⟩ :: (runPipeline post s').2
    ∧ (runPipeline (pre ++ st :: post) s).2.length = pre.length + 1 + post.length
    ∧ (runPipeline (pre ++ st :: post) s).1 = (runPipeline post s').1 := by
  have hout : nodeOutput st (runPipeline pre s).1 = (s', ⟨st.name, errContent d⟩) := by
    unfold nodeOutput
    rw [h]
  refine ⟨?_, ?_, ?_⟩ <;>
    · rw [runPipeline_append]
      simp [runPipeline, hout, runPipeline_length]
      try omega

/-- Normal stub step "stub-a" (spec §8.2 suggests stub steps). -/
def stubStepA : Step := ⟨"stub-a", fun s => .ok s "stub-a completed"⟩

/-- Normal stub step "stub-b". -/
def stubStepB : Step := ⟨"stub-b", fun s => .ok s "stub-b completed"⟩

/-- A deliberately-raising stub step. -/
def raisingStub : Step := ⟨"raising-stub", fun s => .err s "RuntimeError: deliberate failure"⟩

/-- Witness for C2: a three-step run whose middle step raises yields three
messages, the middle one the error message, and the final state is the one
the last stub produced from the raising step's state. -/
theorem C2_witness :
    raisingStub.run (runPipeline [stubStepA] default_state).1
        = .err default_state "RuntimeError: deliberate failure"
    ∧ ((runPipeline ([stubStepA] ++ raisingStub :: [stubStepB]) default_state).2
        = (runPipeline [stubStepA] default_state).2
            ++ ⟨raisingStub.name, errContent "RuntimeError: deliberate failure"⟩
              :: (runPipeline [stubStepB] default_state).2
      ∧ (runPipeline ([stubStepA] ++ raisingStub :: [stubStepB]) default_state).2.length
          = [stubStepA].length + 1 + [stubStepB].length
      ∧ (runPipeline ([stubStepA] ++ raisingStub :: [stubStepB]) default_state).1
          = (runPipeline [stubStepB] default_state).1) :=
  ⟨rfl, C2_failure_isolation [stubStepA] [stubStepB] raisingStub default_state
    default_state "RuntimeError: deliberate failure" rfl⟩

/-- Claim C3: running the pipeline on an empty sequence of Step Modules
returns the input State unchanged with an empty message sequence, and the
placeholder no-op node installed by `build_graph` for that case is
transparent — it produces no message and no state change, so the empty
compiled graph returns `(state, [])` as well. -/
theorem C3_empty_run :
    (∀ s : UserState, runPipeline [] s = (s, []))
    ∧ (∀ p : UserState × List Message, noop p = p)
    ∧ (∀ s : UserState, runGraphOnceEmpty s = (s, [])) :=
  ⟨fun _ => rfl, fun _ => rfl, fun _ => rfl⟩

/-! ## Debt payoff planning (orchestrator/tools.py `payoff_plan`, agents/debt.py)

Python's `list.sort(key=...)` is a stable ascending sort; it is modelled by
a stable insertion sort parameterised by the strict lexicographic order on
the Python sort key. -/

/-- Insert `x` before the first element strictly greater than it (keeping
it after earlier elements with an equal key, as a stable sort does). -/
def insertSorted {α : Type} (p : α → α → Prop) [DecidableRel p] (x : α) :
    List α → List α
  | [] => [x]
  | y :: ys => if p x y then x :: y :: ys else y :: insertSorted p x ys

/-- Stable ascending sort by the strict order `p` (model of `list.sort`). -/
def stableSort {α : Type} (p : α → α → Prop) [DecidableRel p] (l : List α) : List α :=
  l.foldl (fun acc x => insertSorted p x acc) []

/-- Strict order of the avalanche sort key `(-d.apr, d.balance)`. -/
def avalancheLt (d1 d2 : Debt) : Prop :=
  -d1.apr < -d2.apr ∨ (-d1.apr = -d2.apr ∧ d1.balance < d2.balance)

instance : DecidableRel avalancheLt := fun d1 d2 => by
  unfold avalancheLt
  infer_instance

/-- Strict order of the snowball sort key `(d.balance, -d.apr)`. -/
def snowballLt (d1 d2 : Debt) : Prop :=
  d1.balance < d2.balance ∨ (d1.balance = d2.balance ∧ -d1.apr < -d2.apr)

instance : DecidableRel snowballLt := fun d1 d2 => by
  unfold snowballLt
  infer_instance

/-- `payoff_plan` from orchestrator/tools.py — the second definition at the
bottom of the file, which overrides the earlier one of the same name.  The
input debts are already structured (`_normalize_debts` only fills dict
defaults), and the sorted list is matched directly: it is empty exactly
when the input is (in that case the Python code returns the empty plan
before normalizing `method`, so `method` passes through unchanged).  In the
non-empty case `focus` is the first debt of the sorted order and Python's
`d is focus` identity test singles out exactly that first element. -/
def payoff_plan (debts_in : List Debt) (method : String) : Plan :=
  let sorted := if method == "snowball"
    then stableSort snowballLt debts_in
    else stableSort avalancheLt debts_in
  match sorted with
  | [] =>
    { method := method, next_focus := ⟨none, 0⟩, order := [],
      projected_interest_saved := 0, recommended_total_payment := 0,
      schedule := [], recommendation := "No debts found." }
  | focus :: rest =>
    let method2 := if method == "snowball" then "snowball" else "avalanche"
    let total_min := ((focus :: rest).map Debt.min_payment).sum
    let recommended_total := max total_min (focus.balance * (10/100) / 12)
    let focus_extra := max 0 (recommended_total - total_min)
    let schedule : List SchedEntry :=
      ⟨focus.name, "min+extra", pyround2 (focus.min_payment + focus_extra)⟩ ::
        rest.map (fun d => ⟨d.name, "min", pyround2 d.min_payment⟩)
    let mean_apr := ((focus :: rest).map Debt.apr).sum / ((focus :: rest).length : ℚ)
    let order : List OrderEntry :=
      ⟨focus.name, focus.balance, focus.apr,
        max 1 (pyround (focus.balance / max (focus.min_payment + focus_extra) 1))⟩ ::
        rest.map (fun d =>
          ⟨d.name, d.balance, d.apr, max 1 (pyround (d.balance / max d.min_payment 1))⟩)
    { method := method2,
      next_focus := ⟨some focus.name, pyround2 focus_extra⟩,
      order := order,
      projected_interest_saved := pyround2 (focus_extra * 12 * mean_apr * (1/2)),
      recommended_total_payment := pyround2 ((schedule.map SchedEntry.amount).sum),
      schedule := schedule,
      recommendation := "Pay minimums on all, then add " ++ inr focus_extra ++
        " to **" ++ focus.name ++ "**." }

/-- `Agent.step` of agents/debt.py: store the plan and format the message.
`focus.get("name", "N/A")` finds the key present (possibly holding `None`),
so a missing focus renders as Python's `None`; `extra_payment` and
`projected_interest_saved` are always numbers, so both optional text
fragments are always present. -/
def debtStep (s : UserState) : UserState × String :=
  let plan := payoff_plan s.debts s.debt_strategy
  let focus_name := match plan.next_focus.name with
    | some n => n
    | none => "None"
  let extra_txt := " with extra ₹" ++ fmtFloat2 plan.next_focus.extra_payment
  let saved_txt := " Est. interest saved ₹" ++
    commaInt (pyround plan.projected_interest_saved) ++ "."
  let msg := "Using " ++ plan.method ++ " method. Next focus: " ++ focus_name ++
    extra_txt ++ "." ++ saved_txt
  ({s with debt_plan := some plan}, msg)

lemma length_zero_eq_empty (a : String) (h : a.length = 0) : a = "" := by
  cases a with
  | mk data =>
    cases data with
    | nil => rfl
    | cons c cs => simp [String.length] at h

/-- A concatenation whose left part is nonempty is a nonempty string. -/
lemma append_left_ne_empty {a : String} (b : String) (ha : a ≠ "") : a ++ b ≠ "" := by
  intro hab
  apply ha
  have hlen := congrArg String.length hab
  rw [String.length_append] at hlen
  have h0 : ("" : String).length = 0 := rfl
  exact length_zero_eq_empty a (by omega)

/-- The debt `A` of spec §8.6. -/
def debtA : Debt := ⟨"A", 30000, 36/100, 0⟩

/-- The debt `B` of spec §8.6. -/
def debtB : Debt := ⟨"B", 120000, 11/100, 0⟩

/-- The disambiguating debt `C` of spec §8.6. -/
def debtC : Debt := ⟨"C", 5000, 5/100, 0⟩

/-- Claim C5: the payoff plan selects its next focus deterministically by
strategy.  With debts A (balance 30000, APR 0.36) and B (balance 120000,
APR 0.11), avalanche picks A (highest APR) and snowball picks A (smallest
balance); adding C (balance 5000, APR 0.05), avalanche still picks A while
snowball picks C. -/
theorem C5_debt_ordering :
    (payoff_plan [debtA, debtB] "avalanche").next_focus.name = some "A"
    ∧ (payoff_plan [debtA, debtB] "snowball").next_focus.name = some "A"
    ∧ (payoff_plan [debtA, debtB, debtC] "avalanche").next_focus.name = some "A"
    ∧ (payoff_plan [debtA, debtB, debtC] "snowball").next_focus.name = some "C" := by
  have hne : ("avalanche" : String) ≠ "snowball" := by decide
  refine ⟨?_, ?_, ?_, ?_⟩ <;>
    norm_num [payoff_plan, stableSort, insertSorted, avalancheLt, snowballLt,
      debtA, debtB, debtC, hne]

/-- Claim C10: for an empty debts list `payoff_plan` (whatever the given
strategy string) returns, without raising, a well-formed plan whose
`next_focus` is `{name: None, extra_payment: 0.0}`, whose `order` and
`schedule` are empty and whose `projected_interest_saved` and
`recommended_total_payment` are 0.0; consequently the Debt step still
succeeds on a State with no debts, stores that plan, and produces a
non-empty message. -/
theorem C10_empty_debts :
    (∀ m : String, payoff_plan [] m =
      { method := m, next_focus := ⟨none, 0⟩, order := [],
        projected_interest_saved := 0, recommended_total_payment := 0,
        schedule := [], recommendation := "No debts found." })
    ∧ (∀ s : UserState, s.debts = [] →
        ((debtStep s).2 ≠ ""
          ∧ (debtStep s).1.debt_plan = some (payoff_plan [] s.debt_strategy))) := by
  constructor
  · intro m
    cases hm : (m == "snowball") <;> simp [payoff_plan, hm, stableSort]
  · intro s h
    constructor
    · simp only [debtStep]
      apply append_left_ne_empty
      apply append_left_ne_empty
      apply append_left_ne_empty
      apply append_left_ne_empty
      apply append_left_ne_empty
      apply append_left_ne_empty
      decide
    · simp [debtStep, h]

/-- Witness for C10 at the all-empty state (which has no debts). -/
theorem C10_witness :
    zeroState.debts = []
    ∧ (debtStep zeroState).2 ≠ ""
    ∧ (debtStep zeroState).1.debt_plan = some (payoff_plan [] zeroState.debt_strategy) :=
  ⟨rfl, (C10_empty_debts.2 zeroState rfl).1, (C10_empty_debts.2 zeroState rfl).2⟩

/-! ## Goals (orchestrator/tools.py `suggest_starter_goals`,
`update_goal_progress`; agents/goals.py) -/

/-- `suggest_starter_goals` from orchestrator/tools.py: an Emergency Fund
goal of max(50000, income*3 rounded to the nearest thousand), plus a Debt
Cushion goal when the state has debts. -/
def suggest_starter_goals (s : UserState) : List Goal :=
  let monthly_income := s.income
  let emergency_target := max 50000 ((pyround (monthly_income * 3 / 1000) : ℚ) * 1000)
  ⟨"Emergency Fund", emergency_target, "2026-03-31", 0⟩ ::
    (if s.debts.isEmpty then []
     else [⟨"Debt Cushion", min 30000 (emergency_target * (4/10)), "2025-12-31", 0⟩])

/-- `update_goal_progress` from orchestrator/tools.py: an empty goals list
is returned as is; otherwise a monthly contribution is derived from the
autosave suggestion (a quarter of it, when positive) or from
`income * savings_rate`, 30% of it is added to each goal with a truthy
(nonzero) target, and `saved` is clamped to `target`. -/
def update_goal_progress (s : UserState) : List Goal :=
  if s.goals.isEmpty then s.goals
  else
    let autosave := match s.suggested_autosave with
      | some a => a
      | none => 0
    let monthly_contribution :=
      if 0 < autosave then autosave * (1/4) else s.income * s.savings_rate
    s.goals.map (fun g =>
      if g.target ≠ 0 then
        { g with saved := min (g.saved + monthly_contribution * (3/10)) g.target }
      else g)

/-- `Agent.step` of agents/goals.py: create starter goals when the list is
empty, otherwise update progress and report the first active goal. -/
def goalStep (s : UserState) : UserState × String :=
  if s.goals.isEmpty then
    let gs := suggest_starter_goals s
    ({s with goals := gs},
     "Created starter goals: " ++ String.intercalate ", " (gs.map Goal.name) ++ ".")
  else
    let gs := update_goal_progress s
    let msg := match gs.filter (fun g => decide (g.target ≠ 0)) with
      | [] => "Updated goals."
      | top :: _ =>
        "Updated goals. Closest: **" ++ top.name ++ "** at " ++
          toString (if top.target = 0 then 0 else pytrunc (100 * top.saved / top.target)) ++
          "% (by " ++ top.deadline ++ ")."
    ({s with goals := gs}, msg)

lemma update_goal_progress_saved_le (s : UserState) :
    ∀ g ∈ update_goal_progress s, g.target ≠ 0 → g.saved ≤ g.target := by
  intro g hg ht
  unfold update_goal_progress at hg
  by_cases hempty : s.goals.isEmpty
  · rw [if_pos hempty] at hg
    rw [List.isEmpty_iff] at hempty
    rw [hempty] at hg
    exact absurd hg (List.not_mem_nil g)
  · rw [if_neg hempty] at hg
    obtain ⟨g0, _, hfg⟩ := List.mem_map.mp hg
    by_cases h0 : g0.target = 0
    · rw [if_neg (by simp [h0])] at hfg
      rw [← hfg] at ht
      exact absurd h0 ht
    · rw [if_pos h0] at hfg
      rw [← hfg]
      exact min_le_right _ _

/-- Claim C7: after the Goal step runs on a State with a non-empty goals
list, every goal with nonzero target satisfies `saved ≤ target` (the step
clamps `saved` to `target`). -/
theorem C7_goal_clamped (s : UserState) (hne : s.goals ≠ []) :
    ∀ g ∈ (goalStep s).1.goals, g.target ≠ 0 → g.saved ≤ g.target := by
  have hempty : s.goals.isEmpty = false := by
    cases hgl : s.goals with
    | nil => exact absurd hgl hne
    | cons a l => rfl
  have hgoals : (goalStep s).1.goals = update_goal_progress s := by
    unfold goalStep
    rw [hempty]
    simp
  rw [hgoals]
  exact update_goal_progress_saved_le s

/-- Concrete input for the C7 witness: one Emergency Fund goal whose
`saved` already exceeds its `target`. -/
def goalWitnessState : UserState :=
  { goals := [⟨"Emergency Fund", 50000, "2026-03-31", 100000⟩] }

/-- Witness for C7: on `goalWitnessState` the Goal step yields the clamped
goal (saved 50000 = target), which is a member of the resulting goals list
with nonzero target and `saved ≤ target`. -/
theorem C7_witness :
    goalWitnessState.goals ≠ []
    ∧ (⟨"Emergency Fund", 50000, "2026-03-31", 50000⟩ : Goal)
        ∈ (goalStep goalWitnessState).1.goals
    ∧ ((⟨"Emergency Fund", 50000, "2026-03-31", 50000⟩ : Goal).target ≠ 0
        → (⟨"Emergency Fund", 50000, "2026-03-31", 50000⟩ : Goal).saved
            ≤ (⟨"Emergency Fund", 50000, "2026-03-31", 50000⟩ : Goal).target) := by
  have hne : goalWitnessState.goals ≠ [] := by
    simp [goalWitnessState]
  have hmem : (⟨"Emergency Fund", 50000, "2026-03-31", 50000⟩ : Goal)
      ∈ (goalStep goalWitnessState).1.goals := by
    have hgs : (goalStep goalWitnessState).1.goals
        = [⟨"Emergency Fund", 50000, "2026-03-31", 50000⟩] := by
      norm_num [goalStep, goalWitnessState, update_goal_progress, min_def]
    rw [hgs]
    exact List.mem_singleton.mpr rfl
  exact ⟨hne, hmem, C7_goal_clamped goalWitnessState hne _ hmem⟩

/-! ## Micro-savings, alerts, advice (orchestrator/tools.py;
agents/savings.py, agents/alerts.py, agents/advice.py) -/

/-- Strict order of the savings-idea sort key `-est * (1 + pressure)`. -/
def ideaLt (pressure : ℚ) (a b : Suggestion) : Prop :=
  -a.est_monthly_savings * (1 + pressure) < -b.est_monthly_savings * (1 + pressure)

instance (p : ℚ) : DecidableRel (ideaLt p) := fun a b => by
  unfold ideaLt
  infer_instance

/-- `find_micro_savings` from orchestrator/tools.py: the five fixed ideas,
sorted by spending pressure (descending estimated saving), first five. -/
def find_micro_savings (s : UserState) : List Suggestion :=
  let income := s.income
  let monthly_spend := s.monthly_spend
  let pressure := clamp ((monthly_spend - (9/10) * income) / max income 1) 0 (1/2)
  let ideas : List Suggestion :=
    [⟨"Round-up transfers: auto-save spare change from each txn", 300⟩,
     ⟨"Switch to a lower-cost mobile/data plan", 250⟩,
     ⟨"Cancel one unused subscription", 400⟩,
     ⟨"Buy staples in bulk (rice, lentils, oil)", 200⟩,
     ⟨"Shift dining-out to once a week", 600⟩]
  (stableSort (ideaLt pressure) ideas).take 5

/-- `Agent.step` of agents/savings.py: store the ideas, suggest a rounded
auto-transfer of `income * savings_rate`, and format the message. -/
def savingsStep (s : UserState) : UserState × String :=
  let ideas := find_micro_savings s
  let monthly_income := s.income
  let suggested_autosave : ℤ := pyround (monthly_income * s.savings_rate)
  let msg := match ideas with
    | [] => "No obvious waste detected. Still recommend auto-transfer of ₹" ++
        commaInt suggested_autosave ++ " on the 1st each month."
    | idea :: _ => "Found " ++ toString ideas.length ++ " micro-savings (e.g., “" ++
        idea.tip ++ "”). Recommend auto-transfer of ₹" ++ commaInt suggested_autosave ++
        " on the 1st each month."
  ({s with savings_suggestions := ideas, suggested_autosave := some (suggested_autosave : ℚ)},
   msg)

/-- `detect_overspend_alerts` from orchestrator/tools.py: empty when income
is not positive; otherwise compare the naive category split of
`monthly_spend` against the soft caps (limit ratio of income plus 10%
grace) in the dict's insertion order. -/
def detect_overspend_alerts (s : UserState) : List Alert :=
  if s.income ≤ 0 then []
  else
    let income := s.income
    let monthly_spend := s.monthly_spend
    let est_split : List (String × ℚ × ℚ) :=
      [("groceries", monthly_spend * (20/100), 12/100),
       ("dining", monthly_spend * (12/100), 8/100),
       ("shopping", monthly_spend * (10/100), 7/100),
       ("transport", monthly_spend * (8/100), 6/100),
       ("entertainment", monthly_spend * (6/100), 5/100)]
    est_split.filterMap (fun c =>
      let spent := c.2.1
      let soft_cap := income * c.2.2 * (110/100)
      if soft_cap < spent then
        some ⟨c.1, pyround2 spent, pyround2 soft_cap,
          c.1.capitalize ++ " spend " ++ inr spent ++ " is above your soft cap " ++
            inr soft_cap ++ ". Try 10% less next month."⟩
      else none)

/-- `Agent.step` of agents/alerts.py. -/
def alertsStep (s : UserState) : UserState × String :=
  let alerts := detect_overspend_alerts s
  let msg := match alerts with
    | [] => "No overspending detected. ✅"
    | _ :: _ => toString alerts.length ++ " alert(s) this period."
  ({s with alerts := alerts}, msg)

/-- `generate_advice` from orchestrator/tools.py. -/
def generate_advice (s : UserState) : String :=
  let income := s.income
  let savings_rate := s.savings_rate
  let savings_amt := match s.budget with
    | some b => b.savings
    | none => income * savings_rate
  let tips : List String :=
    (if savings_rate < 1/10
      then ["try nudging your savings rate up by 1–2% this month"] else [])
    ++ (if income * (9/10) < s.monthly_spend
      then ["trim one discretionary category by ~10%"] else [])
    ++ (if s.debts.isEmpty then []
      else ["keep extra payments focused on the current target account"])
  let suffix := match tips with
    | [] => ""
    | _ :: _ => " Tip: " ++ String.intercalate "; " tips ++ "."
  "You\x27re doing well. Keep an automatic transfer of " ++ inr savings_amt ++
    " on the 1st, review subscriptions quarterly, and stay consistent." ++ suffix

/-- `Agent.step` of agents/advice.py: the state is returned unchanged. -/
def adviceStep (s : UserState) : UserState × String := (s, generate_advice s)

/-- A concatenation whose right part is nonempty is a nonempty string. -/
lemma append_right_ne_empty {b : String} (a : String) (hb : b ≠ "") : a ++ b ≠ "" := by
  intro hab
  apply hb
  have hlen := congrArg String.length hab
  rw [String.length_append] at hlen
  have h0 : ("" : String).length = 0 := rfl
  exact length_zero_eq_empty b (by omega)

lemma budgetStep_msg_ne (s : UserState) : (budgetStep s).2 ≠ "" := by
  simp only [budgetStep]
  repeat apply append_left_ne_empty
  decide

lemma debtStep_msg_ne (s : UserState) : (debtStep s).2 ≠ "" := by
  simp only [debtStep]
  repeat apply append_left_ne_empty
  decide

lemma savingsStep_msg_ne (s : UserState) : (savingsStep s).2 ≠ "" := by
  simp only [savingsStep]
  split
  · repeat apply append_left_ne_empty
    decide
  · repeat apply append_left_ne_empty
    decide

lemma goalStep_msg_ne (s : UserState) : (goalStep s).2 ≠ "" := by
  simp only [goalStep]
  split
  · dsimp only
    repeat apply append_left_ne_empty
    decide
  · dsimp only
    split
    · decide
    · repeat apply append_left_ne_empty
      decide

lemma alertsStep_msg_ne (s : UserState) : (alertsStep s).2 ≠ "" := by
  simp only [alertsStep]
  split
  · decide
  · apply append_right_ne_empty
    decide

lemma adviceStep_msg_ne (s : UserState) : (adviceStep s).2 ≠ "" := by
  simp only [adviceStep, generate_advice]
  repeat apply append_left_ne_empty
  decide

/-- Claim C8: every shipped Step Module (Budget, Debt, Savings, Goals,
Alerts, Advice) is modelled as a total Lean function — so it returns
without raising on every State, in particular on the freshly constructed
default State and on a State with zero/empty fields (zero income, no
debts, no goals) — and on both of those states it returns a non-empty
message string. -/
theorem C8_default_state_safety :
    ((budgetStep default_state).2 ≠ "" ∧ (budgetStep zeroState).2 ≠ "")
    ∧ ((debtStep default_state).2 ≠ "" ∧ (debtStep zeroState).2 ≠ "")
    ∧ ((savingsStep default_state).2 ≠ "" ∧ (savingsStep zeroState).2 ≠ "")
    ∧ ((goalStep default_state).2 ≠ "" ∧ (goalStep zeroState).2 ≠ "")
    ∧ ((alertsStep default_state).2 ≠ "" ∧ (alertsStep zeroState).2 ≠ "")
    ∧ ((adviceStep default_state).2 ≠ "" ∧ (adviceStep zeroState).2 ≠ "") :=
  ⟨⟨budgetStep_msg_ne _, budgetStep_msg_ne _⟩,
   ⟨debtStep_msg_ne _, debtStep_msg_ne _⟩,
   ⟨savingsStep_msg_ne _, savingsStep_msg_ne _⟩,
   ⟨goalStep_msg_ne _, goalStep_msg_ne _⟩,
   ⟨alertsStep_msg_ne _, alertsStep_msg_ne _⟩,
   ⟨adviceStep_msg_ne _, adviceStep_msg_ne _⟩⟩

/-! ## Step registry / discovery (app.py `load_agents`)

Resolving an agent name (`_safe_import` of `agents.<name>` plus the checks
in `load_agents`) has four outcomes: the import raised, the module lacks an
`Agent` class, instantiating `Agent()` raised, or a working agent was
obtained.  `load_agents` never raises: failures produce a Streamlit
warning/error (modelled as a returned warning string) and the step is
excluded from the returned agent list.  (graph.py's `_load_agent_module`
and `_make_node` raise instead, but app.py wraps `build_graph` in
`try`/`except` and falls back to this loader plus `run_once_fallback`, so
the caller-visible behaviour is the one modelled here.) -/

/-- Outcome of resolving one agent module name. -/
inductive ModuleRes where
  | importErr (err : String)
  | noAgent
  | initErr (err : String)
  | ok (a : Step)

/-- `load_agents` from app.py: walk the enabled names in order, keep the
agents that resolve, and surface one warning per missing/malformed module
instead of raising. -/
def load_agents : List (String × ModuleRes) → List Step × List String
  | [] => ([], [])
  | x :: l =>
    let rest := load_agents l
    match x.2 with
    | .importErr e =>
      (rest.1, ("Import error in `agents." ++ x.1 ++ "`: " ++ e) :: rest.2)
    | .noAgent =>
      (rest.1, ("Agent `" ++ x.1 ++ "` is missing an `Agent` class.") :: rest.2)
    | .initErr e =>
      (rest.1, ("Failed to init agent `" ++ x.1 ++ "`: " ++ e) :: rest.2)
    | .ok a => (a :: rest.1, rest.2)

/-- Claim C9: when a named step module cannot be imported or lacks the
required Agent shape, discovery reports the problem without raising
(`load_agents` is a total function): the missing or malformed step is
excluded from the run — the returned steps are exactly the successfully
resolved ones, in order — and each failure surfaces exactly one warning to
the caller instead of a crash. -/
theorem C9_discovery_reports (l : List (String × ModuleRes)) :
    (load_agents l).1
      = l.filterMap (fun x => match x.2 with
          | .ok a => some a
          | _ => none)
    ∧ (load_agents l).2.length
      = (l.filter (fun x => match x.2 with
          | .ok _ => false
          | _ => true)).length := by
  induction l with
  | nil => exact ⟨rfl, rfl⟩
  | cons x l ih =>
    obtain ⟨ih1, ih2⟩ := ih
    cases hx : x.2 <;>
      simp [load_agents, hx, ih1, ih2, List.filterMap_cons, List.filter_cons]
